import Mathlib

/-
Verification of the GreenPulse / Terraguard climate-alert engine.

The repository ships the relational schema (src/database_schema.sql), the
architecture and API documentation (src/docs), and the React frontend with
its utility helpers (src/frontend, src/unnamed/part_008).  The backend
service layer (classifier, cache, alert store, dispatcher) is documented but
its Python sources are not part of the material, so those operations are
modelled from the specification and from the repository documentation, as
indicated on each definition.  JavaScript strings are embedded as lists of
characters; floating-point quantities are embedded as rationals.
-/

set_option autoImplicit false

/-- Severity levels used throughout the system (spec section 3 and the
glossary): ordinal classification low < moderate < high < critical. -/
inductive Severity where
  | low
  | moderate
  | high
  | critical
deriving DecidableEq, Repr

/-- Ordinal rank of a severity level, low = 0 up to critical = 3. -/
def Severity.rank : Severity → Nat
  | .low => 0
  | .moderate => 1
  | .high => 2
  | .critical => 3

/-- Embeds `formatPhoneNumber` from src/unnamed/part_008 (frontend utils).
The JavaScript `phone.replace(/\D/g, "")` keeps exactly the digit
characters. -/
def removeNonDigits (phone : List Char) : List Char :=
  phone.filter Char.isDigit

/-- Embeds `formatPhoneNumber` from src/unnamed/part_008: empty (falsy)
input gives the empty string; otherwise the digits are extracted and a
country prefix is normalised onto them. -/
def formatPhoneNumber (phone : List Char) : List Char :=
  if phone = [] then []
  else if List.isPrefixOf ['2', '5', '4'] (removeNonDigits phone) then
    '+' :: removeNonDigits phone
  else if List.isPrefixOf ['0'] (removeNonDigits phone) then
    '+' :: '2' :: '5' :: '4' :: (removeNonDigits phone).drop 1
  else '+' :: removeNonDigits phone

/-- Embeds the `colors` lookup table of `getSeverityColor` from
src/unnamed/part_008: only the keys low, medium, high, critical appear. -/
def severityColors : List (String × String) :=
  [("low", "bg-blue-100 text-blue-800"),
   ("medium", "bg-yellow-100 text-yellow-800"),
   ("high", "bg-orange-100 text-orange-800"),
   ("critical", "bg-red-100 text-red-800")]

/-- Embeds `getSeverityColor` from src/unnamed/part_008:
`colors[severity] || colors.low`, i.e. unknown keys fall back to the low
style. -/
def getSeverityColor (severity : String) : String :=
  match severityColors.lookup severity with
  | some c => c
  | none => "bg-blue-100 text-blue-800"

/-- JavaScript regular-expression class `\s` (ECMAScript WhiteSpace and
LineTerminator characters), used by `validatePhoneNumber` in
src/unnamed/part_008. -/
def isJsWs (c : Char) : Bool :=
  c == ' ' || c == '\t' || c == '\n' || c == '\x0b' || c == '\x0c' ||
  c == '\r' || c.toNat == 0xA0 || c.toNat == 0x1680 ||
  (0x2000 ≤ c.toNat && c.toNat ≤ 0x200A) ||
  c.toNat == 0x2028 || c.toNat == 0x2029 || c.toNat == 0x202F ||
  c.toNat == 0x205F || c.toNat == 0x3000 || c.toNat == 0xFEFF

/-- A character admitted by the class `[\d\s-()]` of the validation regex in
src/unnamed/part_008 (the hyphen there is literal). -/
def isAllowedChar (c : Char) : Bool :=
  c.isDigit || isJsWs c || c == '-' || c == '(' || c == ')'

/-- The anchored regex `^[+]?[\d\s-()]+$` of `validatePhoneNumber` in
src/unnamed/part_008: an optional leading plus sign, then at least one
character of the class.  The plus sign is not in the class, so a leading
plus can only be consumed by the optional part. -/
def matchesPhonePattern (phone : List Char) : Bool :=
  match phone with
  | [] => false
  | c :: rest =>
      if c == '+' then !rest.isEmpty && rest.all isAllowedChar
      else (c :: rest).all isAllowedChar

/-- Embeds `validatePhoneNumber` from src/unnamed/part_008: reject when the
digit count is below 9 or above 15, otherwise test the whole input against
the regex. -/
def validatePhoneNumber (phone : List Char) : Bool :=
  if (phone.filter Char.isDigit).length < 9 ∨
      15 < (phone.filter Char.isDigit).length then false
  else matchesPhonePattern phone

/-- One day of the 30-day observation window (spec section 3,
ObservationWindow): daily maximum temperature and precipitation, embedded
as rationals. -/
structure DayObs where
  maxTempC : ℚ
  precipMm : ℚ
deriving DecidableEq, Repr

/-- Modelled from the spec: `avg_precip = mean(precipitation_mm)` of the
RiskClassifier (spec section 4.3); the classifier source
(backend/app/services/climate_risk_service.py) is not under src/. -/
def avgPrecip (w : List DayObs) : ℚ :=
  (w.map DayObs.precipMm).sum / w.length

/-- Modelled from the spec: `dry_days = count(precipitation_mm < 2.0mm)`
(spec section 4.3). -/
def dryDays (w : List DayObs) : Nat :=
  w.countP (fun d => decide (d.precipMm < 2))

/-- Modelled from the spec: drought severity rules of the RiskClassifier
(spec section 4.3), evaluated in the stated order with the first match
winning: critical if avg_precip < 2.0 and dry_days >= 20; high if
dry_days >= 15 or avg_precip < 3.0; moderate if dry_days >= 7; else low.
The critical rule matches the threshold text shown in
src/frontend/src/pages/Alerts.jsx. -/
def droughtSeverity (w : List DayObs) : Severity :=
  if avgPrecip w < 2 ∧ 20 ≤ dryDays w then Severity.critical
  else if 15 ≤ dryDays w ∨ avgPrecip w < 3 then Severity.high
  else if 7 ≤ dryDays w then Severity.moderate
  else Severity.low

/-- Modelled from the spec: `max_daily = max` over the window
(spec section 4.3, flood rules). -/
def maxDaily (w : List DayObs) : ℚ :=
  (w.map DayObs.precipMm).foldr max 0

/-- Modelled from the spec: `heavy_rain_days = count(precipitation_mm >=
30mm)` (spec section 4.3). -/
def heavyRainDays (w : List DayObs) : Nat :=
  w.countP (fun d => decide (30 ≤ d.precipMm))

/-- Modelled from the spec: flood severity (spec section 4.3 and
Scenario B): critical if max_daily >= 100mm or heavy_rain_days >= 5,
moderate if heavy_rain_days >= 2, else low. -/
def floodSeverity (w : List DayObs) : Severity :=
  if 100 ≤ maxDaily w ∨ 5 ≤ heavyRainDays w then Severity.critical
  else if 2 ≤ heavyRainDays w then Severity.moderate
  else Severity.low

/-- Modelled from the spec: length of the longest run of consecutive days
with max_temperature_c > 35 (spec section 4.3, heat stress). -/
def maxHotRun (w : List DayObs) : Nat :=
  (w.foldl
    (fun (p : Nat × Nat) d =>
      if 35 < d.maxTempC then (p.1 + 1, max p.2 (p.1 + 1)) else (0, p.2))
    (0, 0)).2

/-- Modelled from the spec: heat-stress severity is high when a run of at
least 5 consecutive days above 35 degrees exists (spec section 4.3). -/
def heatSeverity (w : List DayObs) : Severity :=
  if 5 ≤ maxHotRun w then Severity.high else Severity.low

/-- Per-hazard severity verdicts returned by the RiskClassifier
(spec section 4.3). -/
structure Assessments where
  drought : Severity
  flood : Severity
  heatStress : Severity
deriving DecidableEq, Repr

/-- Modelled from the spec: `classify` turns an observation window into the
three per-hazard verdicts (spec section 4.3). -/
def classify (w : List DayObs) : Assessments :=
  { drought := droughtSeverity w
    flood := floodSeverity w
    heatStress := heatSeverity w }

/-- A cache entry (spec section 3, CacheEntry): payload plus the time it
was computed; an entry is a hit while computed_at + ttl > now. -/
structure CacheEntry (T : Type) where
  payload : T
  computedAt : Nat
deriving DecidableEq, Repr

/-- Outcome of one `getOrCompute` call: the result, the cached flag of the
query API, and the cache state afterwards. -/
structure FetchOutcome (T E : Type) where
  result : Except E T
  cached : Bool
  state : List (String × CacheEntry T)
deriving Repr

/-- Modelled from the spec: the miss path of `getOrCompute` (spec section
4.5): invoke compute, store the entry only on success, never cache a
failure. -/
def computeAndStore {T E : Type} (s : List (String × CacheEntry T))
    (now : Nat) (key : String) (compute : Except E T) : FetchOutcome T E :=
  match compute with
  | Except.ok v => ⟨Except.ok v, false, (key, ⟨v, now⟩) :: s⟩
  | Except.error e => ⟨Except.error e, false, s⟩

/-- Modelled from the spec: `getOrCompute(key, ttl, compute)` of the
ResultCache (spec section 4.5); the cache service source is not under
src/, while src/database_schema.sql provides the backing
`land_data_cache` table with its 24-hour expiry column.  A stored entry is
served with cached = true while inside its ttl; otherwise the entry is
treated as a miss (lazy eviction by shadowing) and compute runs. -/
def getOrCompute {T E : Type} (s : List (String × CacheEntry T))
    (now : Nat) (key : String) (ttl : Nat) (compute : Except E T) :
    FetchOutcome T E :=
  match List.lookup key s with
  | some e =>
      if now < e.computedAt + ttl then ⟨Except.ok e.payload, true, s⟩
      else computeAndStore s now key compute
  | none => computeAndStore s now key compute

/-- Status column of the alerts table (src/database_schema.sql, `alerts`,
default active). -/
inductive AlertStatus where
  | active
  | expired
deriving DecidableEq, Repr

/-- A row of the alerts table (src/database_schema.sql lines 23-36):
region, risk_type, severity, status, created_at and expires_at; the text
and JSON payload columns are not needed by the claims and are omitted. -/
structure Alert where
  id : Nat
  region : String
  hazardKind : String
  severity : Severity
  status : AlertStatus
  createdAt : Nat
  expiresAt : Nat
deriving DecidableEq, Repr

/-- Modelled from the spec: the alert ttl is a fixed multi-day horizon
(spec section 3, expires_at = created_at + fixed_ttl); measured here in
hours. -/
def fixedTtl : Nat := 7 * 24

/-- The alerts store plus a fresh-id counter standing for the database id
generator. -/
structure AlertStore where
  alerts : List Alert
  nextId : Nat
deriving DecidableEq, Repr

/-- The row predicate of the dedup rule: an active row for the given
(region, hazard_kind) tuple. -/
def isActiveFor (r h : String) (a : Alert) : Bool :=
  a.status == AlertStatus.active && a.region == r && a.hazardKind == h

/-- The current active alert for a tuple, if any (the read step of the
atomic upsert, spec section 4.6). -/
def findActive (r h : String) (s : AlertStore) : Option Alert :=
  s.alerts.find? (isActiveFor r h)

/-- Number of active rows for a tuple; the dedup invariant bounds this
by one. -/
def countActive (r h : String) (s : AlertStore) : Nat :=
  s.alerts.countP (isActiveFor r h)

/-- Marks every active row of the tuple expired (the supersession write,
spec section 3: the prior alert is marked expired). -/
def expireTuple (r h : String) (alerts : List Alert) : List Alert :=
  alerts.map (fun a =>
    if isActiveFor r h a then { a with status := AlertStatus.expired } else a)

/-- A freshly created active alert row. -/
def mkAlert (nid now : Nat) (r h : String) (sev : Severity) : Alert :=
  ⟨nid, r, h, sev, AlertStatus.active, now, now + fixedTtl⟩

/-- Modelled from the spec: `upsertFromAssessment` of the AlertStore
(spec sections 3 and 4.6); the store service source is not under src/.
Reads the current active alert for the tuple, then suppresses when the
severity is unchanged, supersedes (expire old, create new) when it
changed, and creates a fresh active row when none exists.  The boolean
tells whether a new row was created. -/
def upsertFromAssessment (s : AlertStore) (now : Nat) (r h : String)
    (sev : Severity) : AlertStore × Bool :=
  match findActive r h s with
  | some a =>
      if a.severity = sev then (s, false)
      else
        ({ alerts := expireTuple r h s.alerts ++ [mkAlert s.nextId now r h sev]
           nextId := s.nextId + 1 }, true)
  | none =>
      ({ alerts := s.alerts ++ [mkAlert s.nextId now r h sev]
         nextId := s.nextId + 1 }, true)

/-- A sequence of `upsertFromAssessment` calls on one tuple with unchanged
severity, one call per listed timestamp. -/
def runUpserts (s : AlertStore) (r h : String) (sev : Severity) :
    List Nat → AlertStore
  | [] => s
  | t :: ts => runUpserts (upsertFromAssessment s t r h sev).1 r h sev ts

/-- How many calls of the sequence reported creating a new row, i.e. how
many rows transitioned absent to active. -/
def runCreatedCount (s : AlertStore) (r h : String) (sev : Severity) :
    List Nat → Nat
  | [] => 0
  | t :: ts =>
      let u := upsertFromAssessment s t r h sev
      (if u.2 then 1 else 0) + runCreatedCount u.1 r h sev ts

/-- The optional region filter of `listActive` (spec section 4.6). -/
def regionMatches (ro : Option String) (a : Alert) : Bool :=
  match ro with
  | none => true
  | some r => a.region == r

/-- Ordering used by `listActive`: created_at descending, matching the
`idx_alerts_created ON alerts(created_at DESC)` index of
src/database_schema.sql. -/
def createdDesc (a b : Alert) : Prop :=
  b.createdAt ≤ a.createdAt

instance : DecidableRel createdDesc :=
  fun a b => inferInstanceAs (Decidable (b.createdAt ≤ a.createdAt))

instance : IsTotal Alert createdDesc :=
  ⟨fun a b => (Nat.le_total b.createdAt a.createdAt).imp id id⟩

instance : IsTrans Alert createdDesc :=
  ⟨fun _ _ _ hab hbc => Nat.le_trans hbc hab⟩

/-- Modelled from the spec: `listActive(region?)` of the AlertStore
(spec section 4.6): filter status = active, optionally by region, ordered
by created_at descending; src/database_schema.sql backs this with the
"Anyone can read active alerts" policy (status = active) and the
descending created_at index. -/
def listActive (ro : Option String) (alerts : List Alert) : List Alert :=
  List.insertionSort createdDesc
    (alerts.filter (fun a => a.status == AlertStatus.active && regionMatches ro a))

/-- A row of the `land_data_cache` table (src/database_schema.sql lines
177-190) as far as `clean_expired_land_cache` touches it: identity,
location key and the expires_at column (the JSON payload columns are
opaque to the cleanup and omitted). -/
structure LandCacheRow where
  id : Nat
  locationName : String
  expiresAt : Nat
deriving DecidableEq, Repr

/-- Embeds `clean_expired_land_cache` from src/database_schema.sql lines
208-217: `DELETE FROM land_data_cache WHERE expires_at < NOW()` and return
the number of deleted rows.  Returns the surviving table and the deleted
count. -/
def clean_expired_land_cache (now : Nat) (rows : List LandCacheRow) :
    List LandCacheRow × Nat :=
  (rows.filter (fun r => !(decide (r.expiresAt < now))),
   rows.length - (rows.filter (fun r => !(decide (r.expiresAt < now)))).length)

/-- Modelled from the repository documentation: the scheduled job
`cleanup-old-alerts` (src/docs/ARCHITECTURE.md, Scheduled Jobs table) runs
daily to "Remove expired alerts from database"; its implementation
(backend/app/routes/cron.py) is not under src/.  Like
`clean_expired_land_cache` it deletes the rows whose expiry has passed
instead of flipping their status. -/
def cleanupOldAlerts (now : Nat) (alerts : List Alert) : List Alert :=
  alerts.filter (fun a => !(decide (a.expiresAt < now)))

/-- A row of the users table (src/database_schema.sql lines 8-20): both
channel columns are nullable and individually UNIQUE; no constraint ties
them together.  Audit columns are omitted. -/
structure UserRow where
  id : Nat
  phoneNumber : Option String
  telegramId : Option Int
  region : Option String
  latitude : Option ℚ
  longitude : Option ℚ
  subscribed : Bool
deriving DecidableEq, Repr

/-- The constraints the users table places on its rows
(src/database_schema.sql): primary-key ids, UNIQUE phone_number among the
rows that have one, UNIQUE telegram_id among the rows that have one. -/
def usersTableOk (rows : List UserRow) : Prop :=
  (rows.map UserRow.id).Nodup ∧
  (rows.filterMap UserRow.phoneNumber).Nodup ∧
  (rows.filterMap UserRow.telegramId).Nodup

instance (rows : List UserRow) : Decidable (usersTableOk rows) :=
  inferInstanceAs (Decidable (_ ∧ _ ∧ _))

/-- The request body of POST /api/subscribe
(src/docs/API_DOCUMENTATION.md): optional phone_number, optional
telegram_id, region and coordinates. -/
structure SubscribeRequest where
  phoneNumber : Option String
  telegramId : Option Int
  region : String
  latitude : ℚ
  longitude : ℚ
deriving DecidableEq, Repr

/-- Validation of a subscribe request per the repository documentation:
"Either phone_number or telegram_id must be provided"
(src/docs/API_DOCUMENTATION.md, POST /api/subscribe). -/
def subscribeValid (req : SubscribeRequest) : Bool :=
  req.phoneNumber.isSome || req.telegramId.isSome

/-- The subscriber row a valid request creates: the channel identities are
stored exactly as provided, and the row is created subscribed. -/
def subscriberRow (nextId : Nat) (req : SubscribeRequest) : UserRow :=
  { id := nextId
    phoneNumber := req.phoneNumber
    telegramId := req.telegramId
    region := some req.region
    latitude := some req.latitude
    longitude := some req.longitude
    subscribed := true }

/-- Modelled from the repository documentation: the subscribe operation of
POST /api/subscribe (src/docs/API_DOCUMENTATION.md); the handler source is
not under src/.  A valid request creates a subscribed row carrying the
channel identities exactly as provided (the documented example provides
both at once); an invalid one is rejected. -/
def subscribe (rows : List UserRow) (nextId : Nat) (req : SubscribeRequest) :
    Option (List UserRow × UserRow) :=
  if subscribeValid req then
    some (rows ++ [subscriberRow nextId req], subscriberRow nextId req)
  else none

/-- Modelled from the spec: the templated fallback narrative of the
SummaryGenerator, built from the raw metrics (spec section 4.4); the
service source is not under src/. -/
def fallbackNarrative (region : String) (w : List DayObs) : String :=
  "Climate summary for " ++ region ++ ": " ++ toString (dryDays w) ++
  " dry days and " ++ toString (heavyRainDays w) ++
  " heavy rain days over the last " ++ toString w.length ++ " days."

/-- Whitespace trimming on both ends of a character list, embedding the
trim step the spec prescribes for collaborator prose (spec section 4.4). -/
def trimChars (l : List Char) : List Char :=
  ((l.dropWhile Char.isWhitespace).reverse.dropWhile Char.isWhitespace).reverse

/-- Modelled from the spec: the length cap applied to collaborator prose
(spec section 4.4, cap to prevent unbounded storage growth). -/
def capText (l : List Char) : List Char :=
  l.take 2000

/-- Modelled from the spec: `summarize` of the SummaryGenerator (spec
section 4.4): collaborator output is trimmed and length-capped; on
collaborator failure or empty output the non-fatal templated fallback is
returned instead. -/
def summarize (region : String) (w : List DayObs)
    (llm : Except String String) : String :=
  match llm with
  | Except.ok t =>
      if trimChars t.data = [] then fallbackNarrative region w
      else String.mk (capText (trimChars t.data))
  | Except.error _ => fallbackNarrative region w

/-- Typed errors of the interactive query path (spec section 7). -/
inductive AnalyzeError where
  | notFound
  | upstream
deriving DecidableEq, Repr

/-- Result of `analyzeLocation` (spec section 6): assessments, narrative
and the cached flag. -/
structure AnalysisResult where
  assessment : Assessments
  narrative : String
  cached : Bool
deriving DecidableEq, Repr

/-- Modelled from the spec: the uncached interactive pipeline behind
`analyzeLocation(text)` (spec sections 2, 4.8 and 6), taking the
collaborator outcomes as arguments: resolver failure is NotFoundError,
weather failure is UpstreamError, and the narrative step never fails the
call (spec section 4.4 and Scenario D). -/
def analyzeLocation (region : String) (geo : Except Unit (ℚ × ℚ))
    (weather : Except Unit (List DayObs)) (llm : Except String String) :
    Except AnalyzeError AnalysisResult :=
  match geo with
  | Except.error _ => Except.error AnalyzeError.notFound
  | Except.ok _ =>
      match weather with
      | Except.error _ => Except.error AnalyzeError.upstream
      | Except.ok w =>
          Except.ok
            { assessment := classify w
              narrative := summarize region w llm
              cached := false }

/-- A 30-day window with 20 rainless days, 9 days of 6mm and one of 3mm:
total 57mm, so the average precipitation is 57/30 = 1.9mm with 20 dry
days. -/
def exWindowA : List DayObs :=
  List.replicate 20 ⟨30, 0⟩ ++ List.replicate 9 ⟨30, 6⟩ ++ [⟨30, 3⟩]

/-- A 30-day window with 19 rainless days, 10 days of 5mm and one of 7mm:
total 57mm, so the average precipitation is 1.9mm with 19 dry days. -/
def exWindowB : List DayObs :=
  List.replicate 19 ⟨30, 0⟩ ++ List.replicate 10 ⟨30, 5⟩ ++ [⟨30, 7⟩]

/-- An alert row whose expiry has already passed at time 6. -/
def exSweepAlert : Alert :=
  ⟨0, "Nairobi", "drought", Severity.high, AlertStatus.active, 0, 5⟩

/-- An alerts table holding one overdue and one current row. -/
def exSweepAlerts : List Alert :=
  [exSweepAlert,
   ⟨1, "Kitui", "flood", Severity.moderate, AlertStatus.active, 4, 9⟩]

/-- The documented example request of POST /api/subscribe
(src/docs/API_DOCUMENTATION.md), which provides the phone number and the
telegram id at the same time. -/
def exBothReq : SubscribeRequest :=
  { phoneNumber := some "+254712345678"
    telegramId := some 123456789
    region := "Nairobi"
    latitude := -1286389 / 1000000
    longitude := 36817223 / 1000000 }

/-- The subscriber row the documented example request creates. -/
def exBothUser : UserRow :=
  { id := 1
    phoneNumber := some "+254712345678"
    telegramId := some 123456789
    region := some "Nairobi"
    latitude := some (-1286389 / 1000000)
    longitude := some (36817223 / 1000000)
    subscribed := true }

/-- A subscribe request carrying only a phone number. -/
def exPhoneReq : SubscribeRequest :=
  { phoneNumber := some "+254700000000"
    telegramId := none
    region := "Kitui"
    latitude := -3 / 2
    longitude := 38 }

/-- Every character surviving the digit filter is a digit. -/
theorem all_isDigit_filter (phone : List Char) :
    ∀ c ∈ phone.filter Char.isDigit, Char.isDigit c = true :=
  fun _ hc => (List.mem_filter.mp hc).2

/-- Claim C9: the helper getSeverityColor maps the severity "moderate" to
the low-severity styling, because its lookup table only holds the keys
low, medium, high and critical and unknown severities fall back to the
low style. -/
theorem getSeverityColor_moderate_fallback :
    List.lookup "moderate" severityColors = none ∧
    severityColors.map Prod.fst = ["low", "medium", "high", "critical"] ∧
    getSeverityColor "moderate" = getSeverityColor "low" ∧
    getSeverityColor "moderate" = "bg-blue-100 text-blue-800" := by
  refine ⟨by decide, by decide, by decide, by decide⟩

/-- Claim C8: formatPhoneNumber returns the empty string on falsy (empty)
input; otherwise, with d the digits of the input, it returns plus-d when d
starts with 254, plus-254 followed by d without its leading 0 when d
starts with 0, and plus-d otherwise; consequently every non-empty result
is a plus sign followed by digits only. -/
theorem formatPhoneNumber_spec (phone : List Char) :
    formatPhoneNumber phone =
      (if phone = [] then []
       else if List.isPrefixOf ['2', '5', '4'] (phone.filter Char.isDigit) then
         '+' :: phone.filter Char.isDigit
       else if List.isPrefixOf ['0'] (phone.filter Char.isDigit) then
         '+' :: '2' :: '5' :: '4' :: (phone.filter Char.isDigit).drop 1
       else '+' :: phone.filter Char.isDigit) ∧
    (formatPhoneNumber phone = [] ∨
      ((formatPhoneNumber phone).head? = some '+' ∧
       ((formatPhoneNumber phone).drop 1).all Char.isDigit = true)) := by
  constructor
  · rfl
  · by_cases hp : phone = []
    · exact Or.inl (by simp [formatPhoneNumber, hp])
    · right
      have hall := all_isDigit_filter phone
      unfold formatPhoneNumber removeNonDigits
      rw [if_neg hp]
      split_ifs with h254 h0
      · exact ⟨rfl, by simp [List.all_eq_true]⟩
      · refine ⟨rfl, ?_⟩
        simp [List.all_eq_true]
        intro c hc
        exact hall c (List.mem_of_mem_tail hc)
      · exact ⟨rfl, by simp [List.all_eq_true]⟩

/-- Claim C10: validatePhoneNumber rejects every input whose digit count
is below 9 or above 15; with the digit count in range it is exactly the
anchored pattern test (optional leading plus sign, then digits, whitespace,
hyphens and parentheses). -/
theorem validatePhoneNumber_spec (phone : List Char) :
    (((phone.filter Char.isDigit).length < 9 ∨
        15 < (phone.filter Char.isDigit).length) →
      validatePhoneNumber phone = false) ∧
    (9 ≤ (phone.filter Char.isDigit).length →
      (phone.filter Char.isDigit).length ≤ 15 →
      validatePhoneNumber phone = matchesPhonePattern phone) := by
  constructor
  · intro h
    simp [validatePhoneNumber, h]
  · intro h9 h15
    have hn : ¬((phone.filter Char.isDigit).length < 9 ∨
        15 < (phone.filter Char.isDigit).length) := by omega
    simp [validatePhoneNumber, hn]

/-- Witness for claim C10: a 5-digit input is rejected by the length rule,
and a well-formed 12-digit number is decided by the pattern test, which it
passes. -/
theorem validatePhoneNumber_witness :
    validatePhoneNumber ("12345".data) = false ∧
    (validatePhoneNumber ("+254 712-345-678".data) =
      matchesPhonePattern ("+254 712-345-678".data) ∧
     validatePhoneNumber ("+254 712-345-678".data) = true) :=
  ⟨(validatePhoneNumber_spec ("12345".data)).1 (Or.inl (by decide)),
   (validatePhoneNumber_spec ("+254 712-345-678".data)).2 (by decide) (by decide),
   by decide⟩

/-- Claim C2: the drought rules are evaluated in order with the first
match winning, so the verdict is critical exactly when avg_precip < 2.0
and dry_days >= 20, high when (not critical and) dry_days >= 15 or
avg_precip < 3.0, moderate when (neither and) dry_days >= 7, and low
otherwise; in particular a window with avg_precip = 1.9mm and
dry_days = 20 is critical, and one with avg_precip = 1.9mm and
dry_days = 19 is at most high. -/
theorem droughtSeverity_spec :
    (∀ w : List DayObs,
      (droughtSeverity w = Severity.critical ↔
        (avgPrecip w < 2 ∧ 20 ≤ dryDays w)) ∧
      (¬(avgPrecip w < 2 ∧ 20 ≤ dryDays w) →
        (droughtSeverity w = Severity.high ↔
          (15 ≤ dryDays w ∨ avgPrecip w < 3))) ∧
      (¬(avgPrecip w < 2 ∧ 20 ≤ dryDays w) →
        ¬(15 ≤ dryDays w ∨ avgPrecip w < 3) →
        (droughtSeverity w = Severity.moderate ↔ 7 ≤ dryDays w)) ∧
      (¬(avgPrecip w < 2 ∧ 20 ≤ dryDays w) →
        ¬(15 ≤ dryDays w ∨ avgPrecip w < 3) → ¬(7 ≤ dryDays w) →
        droughtSeverity w = Severity.low)) ∧
    (∀ w : List DayObs, avgPrecip w = 19 / 10 → 20 ≤ dryDays w →
      droughtSeverity w = Severity.critical) ∧
    (∀ w : List DayObs, avgPrecip w = 19 / 10 → dryDays w = 19 →
      Severity.rank (droughtSeverity w) ≤ Severity.rank Severity.high) := by
  refine ⟨fun w => ?_, fun w h19 h20 => ?_, fun w h19 hd => ?_⟩
  · unfold droughtSeverity
    split_ifs with h1 h2 h3 <;> simp_all
  · have h1 : avgPrecip w < 2 ∧ 20 ≤ dryDays w :=
      ⟨by rw [h19]; norm_num, h20⟩
    unfold droughtSeverity
    rw [if_pos h1]
  · have h1 : ¬(avgPrecip w < 2 ∧ 20 ≤ dryDays w) := by
      rintro ⟨-, h⟩
      omega
    have h2 : 15 ≤ dryDays w ∨ avgPrecip w < 3 :=
      Or.inr (by rw [h19]; norm_num)
    unfold droughtSeverity
    rw [if_neg h1, if_pos h2]

/-- Counting a predicate over a replicated list. -/
theorem countP_replicate {A : Type} (p : A → Bool) (n : Nat) (a : A) :
    (List.replicate n a).countP p = if p a then n else 0 := by
  induction n with
  | zero => simp
  | succ n ih =>
      rw [List.replicate_succ, List.countP_cons, ih]
      cases hpa : p a <;> simp [hpa]

/-- The first example window has average precipitation 1.9mm. -/
theorem exWindowA_avg : avgPrecip exWindowA = 19 / 10 := by
  simp [avgPrecip, exWindowA]
  norm_num

/-- The first example window has 20 dry days. -/
theorem exWindowA_dry : dryDays exWindowA = 20 := by
  have h0 : decide ((0 : ℚ) < 2) = true := by norm_num
  have h6 : decide ((6 : ℚ) < 2) = false := by norm_num
  have h3 : decide ((3 : ℚ) < 2) = false := by norm_num
  simp [dryDays, exWindowA, List.countP_append, countP_replicate,
    List.countP_cons, h0, h6, h3]

/-- The second example window has average precipitation 1.9mm. -/
theorem exWindowB_avg : avgPrecip exWindowB = 19 / 10 := by
  simp [avgPrecip, exWindowB]
  norm_num

/-- The second example window has 19 dry days. -/
theorem exWindowB_dry : dryDays exWindowB = 19 := by
  have h0 : decide ((0 : ℚ) < 2) = true := by norm_num
  have h5 : decide ((5 : ℚ) < 2) = false := by norm_num
  have h7 : decide ((7 : ℚ) < 2) = false := by norm_num
  simp [dryDays, exWindowB, List.countP_append, countP_replicate,
    List.countP_cons, h0, h5, h7]

/-- Witness for claim C2: the two concrete 30-day windows with average
precipitation 1.9mm and 20 resp. 19 dry days; the first is classified
critical, the second high, hence at most high. -/
theorem droughtSeverity_witness :
    (avgPrecip exWindowA = 19 / 10 ∧ 20 ≤ dryDays exWindowA ∧
      droughtSeverity exWindowA = Severity.critical) ∧
    (avgPrecip exWindowB = 19 / 10 ∧ dryDays exWindowB = 19 ∧
      Severity.rank (droughtSeverity exWindowB) ≤
        Severity.rank Severity.high) :=
  ⟨⟨exWindowA_avg, by rw [exWindowA_dry],
    droughtSeverity_spec.2.1 exWindowA exWindowA_avg (by rw [exWindowA_dry])⟩,
   ⟨exWindowB_avg, exWindowB_dry,
    droughtSeverity_spec.2.2 exWindowB exWindowB_avg exWindowB_dry⟩⟩

/-- Claim C3: starting from a cache with no entry for the key, the first
getOrCompute call runs compute and stores the successful payload; a second
call within the ttl is served from the cache with cached = true and an
unchanged state regardless of its compute argument, so compute ran exactly
once; a call once the ttl has elapsed consults compute again; and a failed
compute returns the failure without touching the cache, so the following
call runs compute again. -/
theorem getOrCompute_spec {T E : Type} (s : List (String × CacheEntry T))
    (key : String) (ttl t0 t1 t2 : Nat) (v : T) (c2 : Except E T) (e : E)
    (hnone : List.lookup key s = none) (h1 : t1 < t0 + ttl)
    (h2 : t0 + ttl ≤ t2) :
    getOrCompute s t0 key ttl (Except.ok v : Except E T) =
      ⟨Except.ok v, false, (key, ⟨v, t0⟩) :: s⟩ ∧
    getOrCompute ((key, ⟨v, t0⟩) :: s) t1 key ttl c2 =
      ⟨Except.ok v, true, (key, ⟨v, t0⟩) :: s⟩ ∧
    getOrCompute ((key, ⟨v, t0⟩) :: s) t2 key ttl c2 =
      computeAndStore ((key, ⟨v, t0⟩) :: s) t2 key c2 ∧
    getOrCompute s t0 key ttl (Except.error e) =
      ⟨Except.error e, false, s⟩ ∧
    getOrCompute (getOrCompute s t0 key ttl (Except.error e)).state t1 key ttl
        (Except.ok v : Except E T) =
      ⟨Except.ok v, false, (key, ⟨v, t1⟩) :: s⟩ := by
  have hcons : List.lookup key ((key, (⟨v, t0⟩ : CacheEntry T)) :: s) =
      some ⟨v, t0⟩ := by
    simp [List.lookup]
  have hfail : getOrCompute s t0 key ttl (Except.error e) =
      ⟨Except.error e, false, s⟩ := by
    simp [getOrCompute, hnone, computeAndStore]
  refine ⟨?_, ?_, ?_, hfail, ?_⟩
  · simp [getOrCompute, hnone, computeAndStore]
  · simp [getOrCompute, hcons, h1]
  · have hexp : ¬ t2 < t0 + ttl := by omega
    simp [getOrCompute, hcons, hexp]
  · rw [hfail]
    simp [getOrCompute, hnone, computeAndStore]

/-- Witness for claim C3 at a concrete cache: empty store, key nairobi,
ttl 24, first call at time 0 computing 7, second at time 10, third at
time 24. -/
theorem getOrCompute_witness :
    List.lookup "nairobi" ([] : List (String × CacheEntry Nat)) = none ∧
    (10 : Nat) < 0 + 24 ∧ (0 : Nat) + 24 ≤ 24 ∧
    (getOrCompute ([] : List (String × CacheEntry Nat)) 0 "nairobi" 24
        (Except.ok 7 : Except String Nat) =
      ⟨Except.ok 7, false, [("nairobi", ⟨7, 0⟩)]⟩ ∧
    getOrCompute [("nairobi", (⟨7, 0⟩ : CacheEntry Nat))] 10 "nairobi" 24
        (Except.ok 8 : Except String Nat) =
      ⟨Except.ok 7, true, [("nairobi", ⟨7, 0⟩)]⟩ ∧
    getOrCompute [("nairobi", (⟨7, 0⟩ : CacheEntry Nat))] 24 "nairobi" 24
        (Except.ok 8 : Except String Nat) =
      computeAndStore [("nairobi", ⟨7, 0⟩)] 24 "nairobi" (Except.ok 8) ∧
    getOrCompute ([] : List (String × CacheEntry Nat)) 0 "nairobi" 24
        (Except.error "down") =
      ⟨Except.error "down", false, []⟩ ∧
    getOrCompute (getOrCompute ([] : List (String × CacheEntry Nat)) 0
        "nairobi" 24 (Except.error "down")).state 10 "nairobi" 24
        (Except.ok 7 : Except String Nat) =
      ⟨Except.ok 7, false, [("nairobi", ⟨7, 10⟩)]⟩) :=
  ⟨rfl, by decide, by decide,
    getOrCompute_spec [] "nairobi" 24 0 10 24 7 (Except.ok 8) "down"
      rfl (by decide) (by decide)⟩

/-- Searching an appended list when the first part has no match. -/
theorem find?_append_of_none {A : Type} (p : A → Bool) (l1 l2 : List A)
    (h : l1.find? p = none) : (l1 ++ l2).find? p = l2.find? p := by
  simp [List.find?_append, h]

/-- A suppressed upsert: an active alert with the same severity already
exists, so the store is returned unchanged and no row is created. -/
theorem upsert_suppress (s : AlertStore) (now : Nat) (r h : String)
    (sev : Severity) (a : Alert) (hf : findActive r h s = some a)
    (hsev : a.severity = sev) :
    upsertFromAssessment s now r h sev = (s, false) := by
  simp [upsertFromAssessment, hf, hsev]

/-- Once the active alert for the tuple carries the requested severity,
any further same-severity upsert sequence leaves the store untouched and
creates nothing. -/
theorem runUpserts_fixed (s : AlertStore) (r h : String) (sev : Severity)
    (a : Alert) (hf : findActive r h s = some a) (hsev : a.severity = sev)
    (ts : List Nat) :
    runUpserts s r h sev ts = s ∧ runCreatedCount s r h sev ts = 0 := by
  induction ts with
  | nil => exact ⟨rfl, rfl⟩
  | cons t ts ih =>
      have hsupp := upsert_suppress s t r h sev a hf hsev
      refine ⟨?_, ?_⟩
      · show runUpserts (upsertFromAssessment s t r h sev).1 r h sev ts = s
        rw [hsupp]
        exact ih.1
      · show (if (upsertFromAssessment s t r h sev).2 then 1 else 0) +
            runCreatedCount (upsertFromAssessment s t r h sev).1 r h sev ts = 0
        rw [hsupp]
        simpa using ih.2

/-- An upsert against a store with no active row for the tuple creates
exactly one fresh active row, which becomes the alert found for the tuple
afterwards. -/
theorem upsert_create (s : AlertStore) (now : Nat) (r h : String)
    (sev : Severity) (h0 : countActive r h s = 0) :
    upsertFromAssessment s now r h sev =
      ({ alerts := s.alerts ++ [mkAlert s.nextId now r h sev]
         nextId := s.nextId + 1 }, true) ∧
    findActive r h
        { alerts := s.alerts ++ [mkAlert s.nextId now r h sev]
          nextId := s.nextId + 1 } =
      some (mkAlert s.nextId now r h sev) ∧
    countActive r h
        { alerts := s.alerts ++ [mkAlert s.nextId now r h sev]
          nextId := s.nextId + 1 } = 1 := by
  unfold countActive at h0
  have hall : ∀ a ∈ s.alerts, ¬ isActiveFor r h a = true :=
    List.countP_eq_zero.mp h0
  have hnone : findActive r h s = none := by
    rw [findActive, List.find?_eq_none]
    exact hall
  have hnew : isActiveFor r h (mkAlert s.nextId now r h sev) = true := by
    simp [isActiveFor, mkAlert]
  refine ⟨?_, ?_, ?_⟩
  · simp [upsertFromAssessment, hnone]
  · show (s.alerts ++ [mkAlert s.nextId now r h sev]).find? (isActiveFor r h) =
      some (mkAlert s.nextId now r h sev)
    rw [find?_append_of_none _ _ _ (List.find?_eq_none.mpr hall)]
    simp [List.find?, hnew]
  · show (s.alerts ++ [mkAlert s.nextId now r h sev]).countP (isActiveFor r h) = 1
    rw [List.countP_append, h0]
    simp [List.countP_cons, hnew]

/-- Claim C1: starting from a store with no active alert for the tuple,
any sequence of upsertFromAssessment calls on that (region, hazard_kind)
with unchanged severity leaves at most one active row for the tuple in
the store, and at most one call of the sequence creates a row (the rest
are suppressed), so no duplicate active rows are ever created. -/
theorem upsertFromAssessment_dedup (s0 : AlertStore) (r h : String)
    (sev : Severity) (ts : List Nat) (h0 : countActive r h s0 = 0) :
    countActive r h (runUpserts s0 r h sev ts) ≤ 1 ∧
    runCreatedCount s0 r h sev ts ≤ 1 := by
  cases ts with
  | nil =>
      refine ⟨?_, ?_⟩
      · show countActive r h s0 ≤ 1
        omega
      · exact Nat.zero_le 1
  | cons t ts =>
      obtain ⟨hup, hfind, hcount⟩ := upsert_create s0 t r h sev h0
      have hfix := runUpserts_fixed
        { alerts := s0.alerts ++ [mkAlert s0.nextId t r h sev]
          nextId := s0.nextId + 1 } r h sev
        (mkAlert s0.nextId t r h sev) hfind rfl ts
      refine ⟨?_, ?_⟩
      · show countActive r h
            (runUpserts (upsertFromAssessment s0 t r h sev).1 r h sev ts) ≤ 1
        rw [hup]
        simp only []
        rw [hfix.1, hcount]
      · show (if (upsertFromAssessment s0 t r h sev).2 then 1 else 0) +
            runCreatedCount (upsertFromAssessment s0 t r h sev).1 r h sev ts ≤ 1
        rw [hup]
        simp [hfix.2]

/-- Witness for claim C1: three same-severity upserts on the tuple
(Nairobi, drought) starting from the empty store leave one active row and
report one creation. -/
theorem upsertFromAssessment_dedup_witness :
    countActive "Nairobi" "drought" ⟨[], 0⟩ = 0 ∧
    (countActive "Nairobi" "drought"
        (runUpserts ⟨[], 0⟩ "Nairobi" "drought" Severity.high [1, 2, 3]) ≤ 1 ∧
      runCreatedCount ⟨[], 0⟩ "Nairobi" "drought" Severity.high [1, 2, 3] ≤ 1) :=
  ⟨rfl,
   upsertFromAssessment_dedup ⟨[], 0⟩ "Nairobi" "drought" Severity.high
     [1, 2, 3] rfl⟩

/-- Claim C6: for every optional region filter, listActive returns exactly
the alerts with status active (restricted to the region when one is
given), and the returned list is sorted by created_at descending. -/
theorem listActive_spec (ro : Option String) (alerts : List Alert) :
    (∀ a : Alert, a ∈ listActive ro alerts ↔
      (a ∈ alerts ∧ a.status = AlertStatus.active ∧
        regionMatches ro a = true)) ∧
    List.Sorted createdDesc (listActive ro alerts) := by
  constructor
  · intro a
    unfold listActive
    rw [List.mem_insertionSort, List.mem_filter]
    simp [Bool.and_eq_true, and_assoc]
  · exact List.sorted_insertionSort createdDesc _

/-- Claim C7: when the text-generation collaborator fails or returns empty
output, analyzeLocation still succeeds with the non-empty templated
fallback narrative and the hazard assessments computed by the classifier;
the overall result is not an error. -/
theorem analyzeLocation_degraded (region : String) (c : ℚ × ℚ)
    (w : List DayObs) (e : String) :
    analyzeLocation region (Except.ok c) (Except.ok w) (Except.error e) =
      Except.ok ⟨classify w, fallbackNarrative region w, false⟩ ∧
    analyzeLocation region (Except.ok c) (Except.ok w) (Except.ok "") =
      Except.ok ⟨classify w, fallbackNarrative region w, false⟩ ∧
    fallbackNarrative region w ≠ "" := by
  refine ⟨rfl, rfl, ?_⟩
  intro hcontra
  have h2 := congrArg String.data hcontra
  simp [fallbackNarrative, String.data_append] at h2

/-- Counterexample for claim C4: at time 6 the alert with expires_at 5 is
overdue; the sweep embedded from the repository (delete rows whose expiry
passed, per docs/ARCHITECTURE.md cleanup-old-alerts and the
clean_expired_land_cache function of database_schema.sql) removes the row
from the store, so the set of historical rows is not unchanged and the
transition is not a status flip. -/
theorem expirySweep_deletes_counterexample :
    exSweepAlert ∈ exSweepAlerts ∧
    exSweepAlert.expiresAt < 6 ∧
    cleanupOldAlerts 6 exSweepAlerts =
      [⟨1, "Kitui", "flood", Severity.moderate, AlertStatus.active, 4, 9⟩] ∧
    ¬ exSweepAlert ∈ cleanupOldAlerts 6 exSweepAlerts ∧
    clean_expired_land_cache 6 [⟨0, "nairobi", 5⟩] = ([], 1) := by
  refine ⟨by decide, by decide, by decide, by decide, by decide⟩

/-- Claim C4 as amended: a run of the expiry sweep deletes exactly the
overdue rows (expires_at < now) and keeps every other row unchanged (the
survivors form a sublist of the original store); likewise
clean_expired_land_cache keeps exactly the non-overdue cache rows and
reports the number of deleted rows. -/
theorem expirySweep_spec (now : Nat) (alerts : List Alert)
    (rows : List LandCacheRow) :
    (∀ a : Alert, a ∈ cleanupOldAlerts now alerts ↔
      (a ∈ alerts ∧ ¬(a.expiresAt < now))) ∧
    List.Sublist (cleanupOldAlerts now alerts) alerts ∧
    (∀ r : LandCacheRow, r ∈ (clean_expired_land_cache now rows).1 ↔
      (r ∈ rows ∧ ¬(r.expiresAt < now))) ∧
    (clean_expired_land_cache now rows).2 +
      (clean_expired_land_cache now rows).1.length = rows.length := by
  refine ⟨?_, ?_, ?_, ?_⟩
  · intro a
    simp [cleanupOldAlerts, List.mem_filter]
  · exact List.filter_sublist _
  · intro r
    simp [clean_expired_land_cache, List.mem_filter]
  · show rows.length -
        (rows.filter (fun r => !(decide (r.expiresAt < now)))).length +
        (rows.filter (fun r => !(decide (r.expiresAt < now)))).length =
        rows.length
    have hle :=
      List.length_filter_le (fun r => !(decide (r.expiresAt < now))) rows
    omega

/-- Counterexample for claim C5: the documented subscribe request that
carries both a phone number and a telegram id is valid per the API
documentation and creates a schema-admissible subscriber row on which
both channel identities are present, so subscriber records do not carry
exactly one channel. -/
theorem subscribe_both_channels_counterexample :
    subscribeValid exBothReq = true ∧
    subscribe [] 1 exBothReq = some ([exBothUser], exBothUser) ∧
    exBothUser.phoneNumber.isSome = true ∧
    exBothUser.telegramId.isSome = true ∧
    usersTableOk [exBothUser] := by
  refine ⟨rfl, rfl, rfl, rfl, by decide⟩

/-- Claim C5 as amended: subscribe rejects a request exactly when neither
channel identity is present, and every subscriber row it creates carries
at least one of telegram_id and phone_number (at least one deliverable
channel), is appended to the table, and is subscribed; exactly-one is not
enforced. -/
theorem subscribe_channel_spec (rows : List UserRow) (nid : Nat)
    (req : SubscribeRequest) :
    (subscribe rows nid req = none ↔
      (req.phoneNumber = none ∧ req.telegramId = none)) ∧
    (∀ rows2 : List UserRow, ∀ u : UserRow,
      subscribe rows nid req = some (rows2, u) →
      ((u.phoneNumber.isSome = true ∨ u.telegramId.isSome = true) ∧
        rows2 = rows ++ [u] ∧ u.subscribed = true)) := by
  constructor
  · unfold subscribe subscribeValid
    cases hp : req.phoneNumber <;> cases ht : req.telegramId <;> simp
  · intro rows2 u hsub
    unfold subscribe at hsub
    by_cases hv : subscribeValid req = true
    · rw [if_pos hv] at hsub
      have h2 := Option.some.inj hsub
      have hrows : rows2 = rows ++ [subscriberRow nid req] :=
        (congrArg Prod.fst h2).symm
      have hu : u = subscriberRow nid req := (congrArg Prod.snd h2).symm
      subst hu
      subst hrows
      refine ⟨?_, rfl, rfl⟩
      have hor : req.phoneNumber.isSome = true ∨
          req.telegramId.isSome = true := by
        unfold subscribeValid at hv
        cases hpn : req.phoneNumber.isSome
        · rw [hpn] at hv
          right
          simpa using hv
        · exact Or.inl rfl
      simpa [subscriberRow] using hor
    · rw [if_neg hv] at hsub
      exact absurd hsub (by simp)

/-- Witness for the amended claim C5: a phone-only request is accepted and
the created row carries a deliverable channel, is appended to the empty
table, and is subscribed. -/
theorem subscribe_channel_witness :
    subscribe [] 5 exPhoneReq =
      some ([subscriberRow 5 exPhoneReq], subscriberRow 5 exPhoneReq) ∧
    (((subscriberRow 5 exPhoneReq).phoneNumber.isSome = true ∨
        (subscriberRow 5 exPhoneReq).telegramId.isSome = true) ∧
      [subscriberRow 5 exPhoneReq] = [] ++ [subscriberRow 5 exPhoneReq] ∧
      (subscriberRow 5 exPhoneReq).subscribed = true) :=
  ⟨rfl, (subscribe_channel_spec [] 5 exPhoneReq).2 _ _ rfl⟩
